import Mathlib

/-!
Verification of the log-store lambda extension (`src/main.rs`) against its
natural-language specification.

The development shallowly embeds the program's normalization-and-delivery
pipeline:

* `Json` models the `json` crate's `JsonValue` (numbers are modelled as
  integers: no claim computes on numeric values, only moves them around).
* `insertKV` / `Json.insertE` model `json::object::Object::insert` (replace
  an existing key in place, otherwise append) and `JsonValue::insert`, which
  errors on a non-object target.
* `canonicalizeE` is the per-record transform inlined in `handler`
  (main.rs lines 16-70), with `json::parse` abstracted as a `parse`
  parameter of type `String → Option Json` (parse failure is `none`).
* `handlerRun` is `handler`'s loop: canonicalize each record, then
  `sender.send(json).await?`; the channel is modelled by `Chan`, whose
  optional `budget` says how many further sends succeed before the
  receiving side is (permanently) closed.
* `forwarderTrace` is the spawned forwarder task (main.rs lines 131-152):
  per dequeued event it emits the `Sending log` diagnostic, then a
  successful write of `dump json ++ "\n"` or a write-error diagnostic,
  then an optional flush-error diagnostic; after the channel is drained
  and closed it emits the final diagnostic and shuts the socket down.
  Write/flush outcomes are oracles indexed by event number.
* `mainStartup` is the startup sequence of `main` (env lookup, then the
  one-shot `TcpStream::connect(...)?` on line 118, whose error propagates).
* `dump` models the `json` crate's compact serializer closely enough to
  settle the newline-framing claims (string escaping included).
-/

namespace LogStore

/-- Model of `json::JsonValue`. Numbers are modelled as `Int`. -/
inductive Json where
  | null
  | bool (b : Bool)
  | num (n : Int)
  | str (s : String)
  | arr (items : List Json)
  | obj (kvs : List (String × Json))

/-- `json::object::Object::insert`: replace the value of an existing key in
place, otherwise append the new entry at the end (insertion order kept). -/
def insertKV : List (String × Json) → String → Json → List (String × Json)
  | [], k, v => [(k, v)]
  | (k', v') :: rest, k, v =>
    if k' = k then (k, v) :: rest else (k', v') :: insertKV rest k v

/-- Key lookup in the ordered-object entry list. -/
def jlookup (k : String) : List (String × Json) → Option Json
  | [] => none
  | (k', v) :: rest => if k' = k then some v else jlookup k rest

/-- Value of the LAST occurrence of key `k` in an entry list (the value that
survives when the list is folded through `insertKV`). -/
def lastVal (k : String) : List (String × Json) → Option Json
  | [] => none
  | (k', v) :: rest =>
    match lastVal k rest with
    | some w => some w
    | none => if k' = k then some v else none

/-- Folding a list of entries into an object through `insertKV`; this is the
`for (k,v) in obj.iter() { json.insert(k, v)? }` loop of `handler`. -/
def mergeKVs (kvs : List (String × Json)) (m : List (String × Json)) :
    List (String × Json) :=
  kvs.foldl (fun acc kv => insertKV acc kv.1 kv.2) m

/-- `JsonValue::insert`: errors when the target is not an object
(`json::Error::wrong_type`), otherwise inserts. The `?` in `handler`
propagates this error. -/
def Json.insertE : Json → String → Json → Except String Json
  | .obj kvs, k, v => .ok (.obj (insertKV kvs k v))
  | _, _, _ => .error "wrong type"

/-- The entry list of an object value (empty for non-objects). -/
def kvsOf : Json → List (String × Json)
  | .obj kvs => kvs
  | _ => []

/-- The `json` crate's `From<Option<T>> for JsonValue`: `None` becomes JSON
`null`, `Some v` converts `v`. Used by
`json.insert("init_duration_ms", metrics.init_duration_ms)?`. -/
def optionToJson : Option Int → Json
  | some d => .num d
  | none => .null

/-- `lambda_extension::LogPlatformReportMetrics` (numeric fields modelled as
`Int`; `init_duration_ms` is optional, exactly as in the crate). -/
structure ReportMetrics where
  duration_ms : Int
  billed_duration_ms : Int
  memory_size_mb : Int
  max_memory_used_mb : Int
  init_duration_ms : Option Int

/-- `lambda_extension::LambdaLogRecord`. The variants after `platformReport`
are the ones `handler` leaves to its `_ => ()` arm (the `Extension` arm in
the source is commented out, so `extensionLog` is also unhandled). -/
inductive LambdaLogRecord where
  | function (record : String)
  | extensionLog (record : String)
  | platformStart (request_id : String)
  | platformEnd (request_id : String)
  | platformFault (record : String)
  | platformReport (request_id : String) (metrics : ReportMetrics)
  | platformLogsDropped (reason : String) (dropped_records dropped_bytes : Int)
  | platformRuntimeDone (status : String)

/-- `lambda_extension::LambdaLog`: `time` is already the
`timestamp_millis()` of the record's timestamp. -/
structure LambdaLog where
  time : Int
  record : LambdaLogRecord

/-- The five variants `handler` gives a `type` field to; every other variant
falls into the `_ => ()` arm. (Spec-side classification used to state
claims; the code itself has no such predicate.) -/
def handledVariant : LambdaLogRecord → Bool
  | .function _ => true
  | .platformStart _ => true
  | .platformEnd _ => true
  | .platformFault _ => true
  | .platformReport _ _ => true
  | _ => false

/-- The merge loop of the `Function` arm, in the `Except` monad:
`for (k,v) in obj.iter() { json.insert(k, v.to_owned())? }`. -/
def mergeObjE (kvs : List (String × Json)) (j : Json) : Except String Json :=
  kvs.foldlM (fun acc kv => acc.insertE kv.1 kv.2) j

/-- The per-record transform inlined in `handler` (main.rs lines 16-70):
build `object! \x7b "t": log.time.timestamp_millis() \x7d`, then fill in the
variant-specific fields; every `insert` error propagates through `?`.
`parse` abstracts `json::parse` (`none` = parse error). -/
def canonicalizeE (parse : String → Option Json) (log : LambdaLog) :
    Except String Json := do
  let base : Json := .obj [("t", .num log.time)]
  match log.record with
  | .function record =>
    let j ← base.insertE "type" (.str "function")
    match parse record with
    | some (.obj kvs) => mergeObjE kvs j
    | some .null => pure j
    | some v => j.insertE "record" v
    | none => j.insertE "record" (.str record)
  | .platformStart request_id =>
    let j ← base.insertE "type" (.str "platform_start")
    j.insertE "request_id" (.str request_id)
  | .platformEnd request_id =>
    let j ← base.insertE "type" (.str "platform_end")
    j.insertE "request_id" (.str request_id)
  | .platformFault record =>
    let j ← base.insertE "type" (.str "platform_fault")
    j.insertE "record" (.str record)
  | .platformReport request_id metrics =>
    let j ← base.insertE "type" (.str "platform_report")
    let j ← j.insertE "request_id" (.str request_id)
    let j ← j.insertE "duration_ms" (.num metrics.duration_ms)
    let j ← j.insertE "billed_duration_ms" (.num metrics.billed_duration_ms)
    let j ← j.insertE "memory_size_mb" (.num metrics.memory_size_mb)
    let j ← j.insertE "max_memory_used_mb" (.num metrics.max_memory_used_mb)
    j.insertE "init_duration_ms" (optionToJson metrics.init_duration_ms)
  | _ => pure base

/-- The canonical event as a plain value (the transform never actually
errors, which `canonicalizeE_eq_ok` below proves). -/
def canonicalize (parse : String → Option Json) (log : LambdaLog) : Json :=
  match canonicalizeE parse log with
  | .ok j => j
  | .error _ => .null

/-- The delivery queue (`tokio::sync::mpsc::channel(1024)`) as seen by a
producer: `sent` is what has been successfully enqueued; `budget = some k`
means `k` further sends succeed and then the receiving side is permanently
closed (every later `send` returns `SendError`); `budget = none` means the
receiver stays alive. -/
structure Chan where
  sent : List Json
  budget : Option Nat

/-- `Sender::send`: fails exactly when the receiving side is closed. -/
def chanSend (ch : Chan) (j : Json) : Option Chan :=
  match ch.budget with
  | none => some ⟨ch.sent ++ [j], none⟩
  | some 0 => none
  | some (Nat.succ k) => some ⟨ch.sent ++ [j], some k⟩

/-- `handler` (main.rs lines 12-77): for each log in the batch, build the
canonical event and `sender.send(json).await?`; the first failing step
aborts the whole batch with an error (already-sent events stay sent). -/
def handlerRun (parse : String → Option Json) :
    List LambdaLog → Chan → Except String Unit × Chan
  | [], ch => (.ok (), ch)
  | log :: rest, ch =>
    match canonicalizeE parse log with
    | .error e => (.error e, ch)
    | .ok j =>
      match chanSend ch j with
      | none => (.error "channel closed", ch)
      | some ch2 => handlerRun parse rest ch2

/-- `ADDRESS_ENV_NAME` (main.rs line 10). -/
def ADDRESS_ENV_NAME : String := "LOG_STORE_ADDRESS"

/-- `env::vars().find(|(k, _)| k == ADDRESS_ENV_NAME)`. -/
def lookupEnv (env : List (String × String)) (k : String) : Option String :=
  (env.find? (fun kv => kv.1 == k)).map (fun kv => kv.2)

/-- The startup sequence of `main` up to and including line 118: read the
address from the environment (missing ⇒ startup error, via `ok_or_else`/`?`),
then attempt exactly one TCP connection; a connect error propagates through
`?` and `main` returns it (the process terminates). `connect` abstracts
`TcpStream::connect`; its success value is irrelevant here. There is no
other branch: the source has no fallback path. -/
def mainStartup (env : List (String × String))
    (connect : String → Except String Unit) : Except String Unit :=
  match lookupEnv env ADDRESS_ENV_NAME with
  | none => .error ("Unable to find environment variable: " ++ ADDRESS_ENV_NAME)
  | some addr => connect addr

/-- Decimal digit to character (model of the serializer's digit printer). -/
def digChar : Nat → Char
  | 0 => '0'
  | 1 => '1'
  | 2 => '2'
  | 3 => '3'
  | 4 => '4'
  | 5 => '5'
  | 6 => '6'
  | 7 => '7'
  | 8 => '8'
  | 9 => '9'
  | _ => '*'

/-- Hexadecimal digit to character, for `\\u00XX` escapes. -/
def hexChar : Nat → Char
  | 10 => 'a'
  | 11 => 'b'
  | 12 => 'c'
  | 13 => 'd'
  | 14 => 'e'
  | 15 => 'f'
  | m => digChar m

/-- Decimal digits of a natural number, most significant first. -/
def natChars (n : Nat) : List Char :=
  if n < 10 then [digChar n]
  else natChars (n / 10) ++ [digChar (n % 10)]
decreasing_by exact Nat.div_lt_self (by omega) (by omega)

/-- Decimal rendering of an integer. -/
def intDump (n : Int) : String :=
  if n < 0 then "-" ++ String.mk (natChars n.natAbs)
  else String.mk (natChars n.natAbs)

/-- One character of the `json` crate's string escaping
(`codegen::write_string`): quote, backslash and the common control
characters get two-character escapes, other control characters get
`\\u00XX`, everything else passes through. -/
def escapeChar (c : Char) : String :=
  if c = '"' then "\\\""
  else if c = '\\' then "\\\\"
  else if c = '\n' then "\\n"
  else if c = '\r' then "\\r"
  else if c = '\t' then "\\t"
  else if c = Char.ofNat 8 then "\\b"
  else if c = Char.ofNat 12 then "\\f"
  else if c.toNat < 32 then
    "\\u00" ++ String.mk [hexChar (c.toNat / 16), hexChar (c.toNat % 16)]
  else String.singleton c

/-- Concatenation of a list of strings (used for joins and for the bytes a
stream has accepted). -/
def concatAll : List String → String
  | [] => ""
  | s :: rest => s ++ concatAll rest

/-- JSON string-body escaping. -/
def escapeString (s : String) : String := concatAll (s.data.map escapeChar)

mutual

/-- The `json` crate's compact serializer (`JsonValue::dump`, invoked by the
forwarder's `format!("\x7b\x7d\n", json)` through `Display`). -/
def dump : Json → String
  | .null => "null"
  | .bool b => if b then "true" else "false"
  | .num n => intDump n
  | .str s => "\"" ++ escapeString s ++ "\""
  | .arr items => "[" ++ dumpItems items ++ "]"
  | .obj kvs => "\x7b" ++ dumpEntries kvs ++ "\x7d"

/-- Comma-separated array items. -/
def dumpItems : List Json → String
  | [] => ""
  | [j] => dump j
  | j :: rest => dump j ++ "," ++ dumpItems rest

/-- Comma-separated `"key":value` object entries. -/
def dumpEntries : List (String × Json) → String
  | [] => ""
  | [(k, v)] => "\"" ++ escapeString k ++ "\":" ++ dump v
  | (k, v) :: rest =>
    "\"" ++ escapeString k ++ "\":" ++ dump v ++ "," ++ dumpEntries rest

end

/-- Observable steps of the forwarder task (main.rs lines 131-152). -/
inductive FwdEvent where
  | sendingDiag (j : Json)
  | wrote (chunk : String)
  | writeErrDiag
  | flushErrDiag
  | doneDiag
  | sockShutdown

/-- The forwarder task's loop (main.rs lines 131-152), as the trace of steps
it takes while consuming the queue contents `evs` starting at event index
`i`. Per event: the `Sending log` diagnostic; then `write_all` of
`dump j ++ "\n"` succeeds (`wrote`) or fails with a diagnostic, in which
case the event's bytes never reach the stream; then `flush`, whose failure
is also only a diagnostic. When the queue is closed and drained the loop
ends: final diagnostic, then `stream.shutdown()`. -/
def forwarderTrace (wOk fOk : Nat → Bool) (i : Nat) :
    List Json → List FwdEvent
  | [] => [.doneDiag, .sockShutdown]
  | j :: rest =>
    (FwdEvent.sendingDiag j ::
      (if wOk i then [FwdEvent.wrote (dump j ++ "\n")]
       else [FwdEvent.writeErrDiag]))
    ++ (if fOk i then [] else [FwdEvent.flushErrDiag])
    ++ forwarderTrace wOk fOk (i + 1) rest

/-- The chunks a trace successfully wrote to the stream, in order. -/
def writtenChunks (t : List FwdEvent) : List String :=
  t.filterMap fun e =>
    match e with
    | .wrote s => some s
    | _ => none

/-- Recognizers for trace steps (used to count them). -/
def isSendingDiag : FwdEvent → Bool
  | .sendingDiag _ => true
  | _ => false

def isWriteErr : FwdEvent → Bool
  | .writeErrDiag => true
  | _ => false

def isShutdown : FwdEvent → Bool
  | .sockShutdown => true
  | _ => false

/-- `true` iff the string contains a newline character. -/
def hasNL (s : String) : Bool := s.data.any (fun c => c == '\n')

theorem hasNL_append (a b : String) :
    hasNL (a ++ b) = (hasNL a || hasNL b) := by
  simp [hasNL, String.data_append, List.any_append]

theorem hasNL_concatAll (L : List String) :
    hasNL (concatAll L) = L.any hasNL := by
  induction L with
  | nil => rfl
  | cons s rest ih =>
    rw [concatAll, hasNL_append, ih]
    rfl

theorem digChar_noNL (n : Nat) : (digChar n == '\n') = false := by
  unfold digChar
  split <;> rfl

theorem hexChar_noNL (n : Nat) : (hexChar n == '\n') = false := by
  unfold hexChar
  split <;> first
  | rfl
  | exact digChar_noNL _

theorem escapeChar_noNL (c : Char) : hasNL (escapeChar c) = false := by
  unfold escapeChar
  split_ifs with h1 h2 h3 h4 h5 h6 h7 h8
  · rfl
  · rfl
  · rfl
  · rfl
  · rfl
  · rfl
  · rfl
  · rw [hasNL_append]
    have e1 := hexChar_noNL (c.toNat / 16)
    have e2 := hexChar_noNL (c.toNat % 16)
    simp [hasNL, e1, e2]
  · simp [hasNL, String.singleton, h3]

theorem escapeString_noNL (s : String) : hasNL (escapeString s) = false := by
  rw [escapeString, hasNL_concatAll]
  simp [List.any_map, Function.comp, escapeChar_noNL]

theorem natChars_noNL (n : Nat) :
    (natChars n).any (fun c => c == '\n') = false := by
  induction n using Nat.strong_induction_on with
  | _ n ih =>
    rw [natChars]
    split
    · simp [digChar_noNL]
    · rename_i h
      have hlt : n / 10 < n := Nat.div_lt_self (by omega) (by omega)
      rw [List.any_append]
      simp [ih _ hlt, digChar_noNL]

theorem intDump_noNL (n : Int) : hasNL (intDump n) = false := by
  unfold intDump
  split
  · rw [hasNL_append]
    simp [hasNL, natChars_noNL]
  · simp [hasNL, natChars_noNL]

mutual

theorem dump_noNL : ∀ (j : Json), hasNL (dump j) = false
  | .null => by rw [dump]; rfl
  | .bool b => by rw [dump]; cases b <;> rfl
  | .num n => by rw [dump]; exact intDump_noNL n
  | .str s => by
    rw [dump, hasNL_append, hasNL_append, escapeString_noNL]
    rfl
  | .arr items => by
    rw [dump, hasNL_append, hasNL_append, dumpItems_noNL items]
    rfl
  | .obj kvs => by
    rw [dump, hasNL_append, hasNL_append, dumpEntries_noNL kvs]
    rfl

theorem dumpItems_noNL : ∀ (l : List Json), hasNL (dumpItems l) = false
  | [] => by rw [dumpItems]; rfl
  | [j] => by rw [dumpItems]; exact dump_noNL j
  | j :: k :: rest => by
    rw [dumpItems]
    · rw [hasNL_append, hasNL_append, dump_noNL j, dumpItems_noNL (k :: rest)]
      rfl
    · simp

theorem dumpEntries_noNL :
    ∀ (l : List (String × Json)), hasNL (dumpEntries l) = false
  | [] => by rw [dumpEntries]; rfl
  | [(k, v)] => by
    rw [dumpEntries, hasNL_append, hasNL_append, hasNL_append,
      escapeString_noNL, dump_noNL v]
    rfl
  | (k, v) :: p :: rest => by
    rw [dumpEntries]
    · rw [hasNL_append, hasNL_append, hasNL_append, hasNL_append,
        hasNL_append, escapeString_noNL, dump_noNL v,
        dumpEntries_noNL (p :: rest)]
      rfl
    · simp

end

/-- Explicit entry list of the canonical event, per variant (proved equal to
what `canonicalizeE` produces in `canonicalizeE_eq`). -/
def canonKvs (parse : String → Option Json) (log : LambdaLog) :
    List (String × Json) :=
  match log.record with
  | .function record =>
    match parse record with
    | some (.obj kvs) =>
      mergeKVs kvs [("t", .num log.time), ("type", .str "function")]
    | some .null => [("t", .num log.time), ("type", .str "function")]
    | some v => [("t", .num log.time), ("type", .str "function"), ("record", v)]
    | none =>
      [("t", .num log.time), ("type", .str "function"), ("record", .str record)]
  | .platformStart rid =>
    [("t", .num log.time), ("type", .str "platform_start"),
     ("request_id", .str rid)]
  | .platformEnd rid =>
    [("t", .num log.time), ("type", .str "platform_end"),
     ("request_id", .str rid)]
  | .platformFault record =>
    [("t", .num log.time), ("type", .str "platform_fault"),
     ("record", .str record)]
  | .platformReport rid m =>
    [("t", .num log.time), ("type", .str "platform_report"),
     ("request_id", .str rid), ("duration_ms", .num m.duration_ms),
     ("billed_duration_ms", .num m.billed_duration_ms),
     ("memory_size_mb", .num m.memory_size_mb),
     ("max_memory_used_mb", .num m.max_memory_used_mb),
     ("init_duration_ms", optionToJson m.init_duration_ms)]
  | _ => [("t", .num log.time)]

theorem mergeObjE_obj (kvs : List (String × Json)) :
    ∀ m, mergeObjE kvs (.obj m) = .ok (.obj (mergeKVs kvs m)) := by
  induction kvs with
  | nil => intro m; rfl
  | cons kv rest ih =>
    intro m
    simpa [mergeObjE, mergeKVs, List.foldlM_cons, Json.insertE] using
      ih (insertKV m kv.1 kv.2)

theorem canonicalizeE_eq (parse : String → Option Json) (log : LambdaLog) :
    canonicalizeE parse log = .ok (.obj (canonKvs parse log)) := by
  obtain ⟨time, record⟩ := log
  cases record with
  | function record =>
    rcases h : parse record with _ | v
    · simp only [canonicalizeE, canonKvs, h]
      rfl
    · cases v <;> simp only [canonicalizeE, canonKvs, h] <;>
        first
        | rfl
        | exact mergeObjE_obj _ _
  | _ => rfl

theorem canonicalize_eq (parse : String → Option Json) (log : LambdaLog) :
    canonicalize parse log = .obj (canonKvs parse log) := by
  rw [canonicalize, canonicalizeE_eq]

theorem jlookup_insertKV (k k0 : String) (v : Json) :
    ∀ m, jlookup k0 (insertKV m k v)
      = if k = k0 then some v else jlookup k0 m := by
  intro m
  induction m with
  | nil => simp [insertKV, jlookup]
  | cons p rest ih =>
    obtain ⟨k', v'⟩ := p
    by_cases h1 : k' = k
    · subst h1
      by_cases h2 : k' = k0 <;> simp [insertKV, jlookup, h2]
    · by_cases h2 : k' = k0
      · subst h2
        have hk : ¬ k = k' := fun h => h1 h.symm
        simp [insertKV, jlookup, h1, hk]
      · simp [insertKV, jlookup, h1, h2, ih]

theorem jlookup_mergeKVs (k0 : String) (kvs : List (String × Json)) :
    ∀ m, jlookup k0 (mergeKVs kvs m)
      = match lastVal k0 kvs with
        | some v => some v
        | none => jlookup k0 m := by
  induction kvs with
  | nil => intro m; rfl
  | cons kv rest ih =>
    intro m
    obtain ⟨k, v⟩ := kv
    have hstep : mergeKVs ((k, v) :: rest) m = mergeKVs rest (insertKV m k v) := rfl
    rw [hstep, ih (insertKV m k v)]
    rcases hl : lastVal k0 rest with _ | w
    · simp only [lastVal, hl, jlookup_insertKV]
      by_cases h : k = k0 <;> simp [h]
    · simp [lastVal, hl]

theorem canonicalizeE_ok (parse : String → Option Json) (log : LambdaLog) :
    canonicalizeE parse log = .ok (canonicalize parse log) := by
  rw [canonicalizeE_eq, canonicalize_eq]

theorem handlerRun_unbounded (parse : String → Option Json) :
    ∀ (logs : List LambdaLog) (s0 : List Json),
      handlerRun parse logs ⟨s0, none⟩
        = (.ok (), ⟨s0 ++ logs.map (canonicalize parse), none⟩) := by
  intro logs
  induction logs with
  | nil => intro s0; simp [handlerRun]
  | cons log rest ih =>
    intro s0
    simp [handlerRun, canonicalizeE_ok, chanSend, ih]

theorem handlerRun_closed (parse : String → Option Json) :
    ∀ (logs : List LambdaLog) (k : Nat) (s0 : List Json), k < logs.length →
      handlerRun parse logs ⟨s0, some k⟩
        = (.error "channel closed",
           ⟨s0 ++ (logs.take k).map (canonicalize parse), some 0⟩) := by
  intro logs
  induction logs with
  | nil => intro k s0 h; simp at h
  | cons log rest ih =>
    intro k s0 h
    cases k with
    | zero => simp [handlerRun, canonicalizeE_ok, chanSend]
    | succ k =>
      have hk : k < rest.length := by simpa using h
      simp [handlerRun, canonicalizeE_ok, chanSend, ih k _ hk]

theorem writtenChunks_forwarderTrace (wOk fOk : Nat → Bool) :
    ∀ (evs : List Json) (i : Nat),
      writtenChunks (forwarderTrace wOk fOk i evs)
        = (List.enumFrom i evs).filterMap
            (fun p => if wOk p.1 then some (dump p.2 ++ "\n") else none) := by
  intro evs
  induction evs with
  | nil => intro i; rfl
  | cons j rest ih =>
    intro i
    cases hw : wOk i <;> cases hf : fOk i <;>
      · simp [forwarderTrace, writtenChunks, List.filterMap_append, hw, hf,
          List.enumFrom]
        exact ih (i + 1)

theorem countSend_forwarderTrace (wOk fOk : Nat → Bool) :
    ∀ (evs : List Json) (i : Nat),
      (forwarderTrace wOk fOk i evs).countP isSendingDiag = evs.length := by
  intro evs
  induction evs with
  | nil => intro i; rfl
  | cons j rest ih =>
    intro i
    cases hw : wOk i <;> cases hf : fOk i <;>
      simp [forwarderTrace, List.countP_append, List.countP_cons, hw, hf, ih,
        isSendingDiag]

theorem countErr_forwarderTrace (wOk fOk : Nat → Bool) :
    ∀ (evs : List Json) (i : Nat),
      (forwarderTrace wOk fOk i evs).countP isWriteErr
        = (List.enumFrom i evs).countP (fun p => !wOk p.1) := by
  intro evs
  induction evs with
  | nil => intro i; rfl
  | cons j rest ih =>
    intro i
    cases hw : wOk i <;> cases hf : fOk i <;>
      simp [forwarderTrace, List.countP_append, List.countP_cons, hw, hf, ih,
        isWriteErr, List.enumFrom]

theorem countShutdown_forwarderTrace (wOk fOk : Nat → Bool) :
    ∀ (evs : List Json) (i : Nat),
      (forwarderTrace wOk fOk i evs).countP isShutdown = 1 := by
  intro evs
  induction evs with
  | nil => intro i; rfl
  | cons j rest ih =>
    intro i
    cases hw : wOk i <;> cases hf : fOk i <;>
      simp [forwarderTrace, List.countP_append, List.countP_cons, hw, hf, ih,
        isShutdown]

theorem forwarderTrace_ne_nil (wOk fOk : Nat → Bool) (i : Nat)
    (evs : List Json) : forwarderTrace wOk fOk i evs ≠ [] := by
  cases evs <;> simp [forwarderTrace]

theorem getLast_forwarderTrace (wOk fOk : Nat → Bool) :
    ∀ (evs : List Json) (i : Nat),
      (forwarderTrace wOk fOk i evs).getLast? = some .sockShutdown := by
  intro evs
  induction evs with
  | nil => intro i; rfl
  | cons j rest ih =>
    intro i
    rw [forwarderTrace, List.getLast?_append, ih]
    rfl

theorem writtenChunks_allOk (evs : List Json) :
    ∀ i, writtenChunks (forwarderTrace (fun _ => true) (fun _ => true) i evs)
      = evs.map (fun j => dump j ++ "\n") := by
  induction evs with
  | nil => intro i; rfl
  | cons j rest ih =>
    intro i
    simp only [forwarderTrace, if_pos rfl]
    simp [writtenChunks, List.filterMap_append]
    exact ih (i + 1)

/-- Claim C1 counterexample: with the address configured and the one TCP
connect attempt failing, the startup sequence of `main` returns the
connection error (the `?` on main.rs line 118), i.e. the process terminates;
it does not continue into a stdout-fallback mode — no such mode exists in
the source, so the claimed behavior is false. -/
theorem c1_counterexample :
    mainStartup [("LOG_STORE_ADDRESS", "addr")]
        (fun _ => .error "connection refused")
      = .error "connection refused" := rfl

/-- Claim C1 (amended): if the initial TCP connection to the configured
log-store address fails, the connection error propagates out of `main` and
the process terminates at startup; no stdout-fallback mode is entered and no
subsequent event is ever written. -/
theorem c1_connect_failure_fatal (env : List (String × String))
    (addr e : String) (connect : String → Except String Unit)
    (h1 : lookupEnv env ADDRESS_ENV_NAME = some addr)
    (h2 : connect addr = .error e) :
    mainStartup env connect = .error e := by
  simp [mainStartup, h1, h2]

/-- Claim C1 witness: the amended theorem at a concrete environment and a
concretely failing connect. -/
theorem c1_witness :
    lookupEnv [("LOG_STORE_ADDRESS", "addr")] ADDRESS_ENV_NAME = some "addr"
    ∧ mainStartup [("LOG_STORE_ADDRESS", "addr")] (fun _ => .error "refused")
        = .error "refused" :=
  ⟨rfl, c1_connect_failure_fatal [("LOG_STORE_ADDRESS", "addr")] "addr"
    "refused" (fun _ => .error "refused") rfl rfl⟩

/-- Claim C2 counterexample: an `Extension` record falls into `handler`'s
`_ => ()` arm, yet `sender.send(json).await?` on main.rs line 73 runs for
every record, so a minimal event containing only `t` IS enqueued — the claim
that nothing is enqueued for such records is false. -/
theorem c2_counterexample :
    (handlerRun (fun _ => none) [⟨7, .extensionLog "boom"⟩] ⟨[], none⟩).2.sent
      = [.obj [("t", .num 7)]] := rfl

/-- Claim C2 (amended): for every record whose variant is not one of the
five handled ones, the handler still enqueues one event, namely the minimal
event containing only the `t` field (no `type`, nothing else). -/
theorem c2_unhandled_enqueues_minimal (parse : String → Option Json)
    (log : LambdaLog) (s0 : List Json)
    (h : handledVariant log.record = false) :
    handlerRun parse [log] ⟨s0, none⟩
      = (.ok (), ⟨s0 ++ [.obj [("t", .num log.time)]], none⟩) := by
  obtain ⟨time, record⟩ := log
  have hc : canonicalize parse ⟨time, record⟩ = .obj [("t", .num time)] := by
    rw [canonicalize_eq]
    cases record <;> first
    | rfl
    | simp [handledVariant] at h
  simpa [hc] using handlerRun_unbounded parse [⟨time, record⟩] s0

/-- Claim C2 witness: the amended theorem at a concrete unhandled record. -/
theorem c2_witness :
    handledVariant (LambdaLogRecord.platformLogsDropped "overload" 3 100)
      = false
    ∧ handlerRun (fun _ => none)
        [⟨9, .platformLogsDropped "overload" 3 100⟩] ⟨[], none⟩
      = (.ok (), ⟨[.obj [("t", .num 9)]], none⟩) :=
  ⟨rfl, c2_unhandled_enqueues_minimal (fun _ => none)
    ⟨9, .platformLogsDropped "overload" 3 100⟩ [] rfl⟩

/-- Claim C3 counterexample: `Object::insert` overwrites an existing key, so
a `FunctionLog` payload object carrying `type` and `t` keys replaces the
reserved values (here `type` becomes `"evil"` and `t` becomes `99`); and an
unhandled-variant event carries no `type` key at all. The claimed
reservation of `t`/`type` is false. -/
theorem c3_counterexample :
    jlookup "type" (kvsOf (canonicalize
        (fun s => if s = "p"
          then some (.obj [("type", .str "evil"), ("t", .num 99)]) else none)
        ⟨3, .function "p"⟩))
      = some (.str "evil")
    ∧ jlookup "t" (kvsOf (canonicalize
        (fun s => if s = "p"
          then some (.obj [("type", .str "evil"), ("t", .num 99)]) else none)
        ⟨3, .function "p"⟩))
      = some (.num 99)
    ∧ jlookup "type"
        (kvsOf (canonicalize (fun _ => none) ⟨5, .extensionLog "x"⟩))
      = none :=
  ⟨rfl, rfl, rfl⟩

/-- Claim C3 (amended): every event built for one of the five handled
variants contains both a `t` and a `type` key; but the keys are not
reserved: when a `FunctionLog` payload parses to an object, the last
payload value under any key — `t` and `type` included — overwrites the
event's value for that key. -/
theorem c3_reserved_keys (parse : String → Option Json) (log : LambdaLog) :
    (handledVariant log.record = true →
      (jlookup "t" (kvsOf (canonicalize parse log))).isSome = true
      ∧ (jlookup "type" (kvsOf (canonicalize parse log))).isSome = true)
    ∧ (∀ record kvs key v, log.record = .function record →
        parse record = some (.obj kvs) → lastVal key kvs = some v →
        jlookup key (kvsOf (canonicalize parse log)) = some v) := by
  obtain ⟨time, record⟩ := log
  constructor
  · intro hs
    rw [canonicalize_eq]
    cases record with
    | function r =>
      rcases hp : parse r with _ | v
      · simp only [canonKvs, hp]
        exact ⟨rfl, rfl⟩
      · cases v with
        | obj kvs =>
          simp only [canonKvs, hp, kvsOf]
          rw [jlookup_mergeKVs, jlookup_mergeKVs]
          constructor
          · rcases lastVal "t" kvs with _ | w <;> rfl
          · rcases lastVal "type" kvs with _ | w <;> rfl
        | _ =>
          simp only [canonKvs, hp]
          exact ⟨rfl, rfl⟩
    | extensionLog r => simp [handledVariant] at hs
    | platformLogsDropped a b c => simp [handledVariant] at hs
    | platformRuntimeDone a => simp [handledVariant] at hs
    | _ => exact ⟨rfl, rfl⟩
  · intro r kvs key v h1 h2 h3
    subst h1
    rw [canonicalize_eq]
    simp only [canonKvs, h2, kvsOf]
    rw [jlookup_mergeKVs, h3]

/-- Claim C3 witness: the amended theorem at a concrete handled record and a
concrete colliding payload key. -/
theorem c3_witness :
    handledVariant (LambdaLogRecord.function "q") = true
    ∧ (jlookup "t" (kvsOf (canonicalize
          (fun s => if s = "q" then some (.obj [("t", .num 41)]) else none)
          ⟨4, .function "q"⟩))).isSome = true
    ∧ jlookup "t" (kvsOf (canonicalize
          (fun s => if s = "q" then some (.obj [("t", .num 41)]) else none)
          ⟨4, .function "q"⟩))
        = some (.num 41) :=
  ⟨rfl,
   ((c3_reserved_keys
      (fun s => if s = "q" then some (.obj [("t", .num 41)]) else none)
      ⟨4, .function "q"⟩).1 rfl).1,
   (c3_reserved_keys
      (fun s => if s = "q" then some (.obj [("t", .num 41)]) else none)
      ⟨4, .function "q"⟩).2 "q" [("t", .num 41)] "t" (.num 41) rfl rfl rfl⟩

/-- Claim C4 (confirmed): the `FunctionLog` transform follows the four-way
JSON-unwrap heuristic — object payloads are merged at the top level (and no
`record` field appears unless the payload itself carried one), a `null`
payload adds nothing beyond `t`/`type`, any other parsed value is stored
under `record`, and an unparseable payload is stored raw under `record`. -/
theorem c4_json_unwrap (parse : String → Option Json) (time : Int)
    (record : String) :
    (∀ kvs, parse record = some (.obj kvs) →
      canonicalize parse ⟨time, .function record⟩
        = .obj (mergeKVs kvs [("t", .num time), ("type", .str "function")])
      ∧ (lastVal "record" kvs = none →
          jlookup "record"
            (kvsOf (canonicalize parse ⟨time, .function record⟩)) = none))
    ∧ (parse record = some .null →
      canonicalize parse ⟨time, .function record⟩
        = .obj [("t", .num time), ("type", .str "function")])
    ∧ (∀ v, parse record = some v → (∀ kvs, v ≠ .obj kvs) → v ≠ .null →
      canonicalize parse ⟨time, .function record⟩
        = .obj [("t", .num time), ("type", .str "function"), ("record", v)])
    ∧ (parse record = none →
      canonicalize parse ⟨time, .function record⟩
        = .obj [("t", .num time), ("type", .str "function"),
                ("record", .str record)]) := by
  refine ⟨?_, ?_, ?_, ?_⟩
  · intro kvs h
    constructor
    · rw [canonicalize_eq]
      simp [canonKvs, h]
    · intro hnone
      rw [canonicalize_eq]
      simp only [canonKvs, h, kvsOf]
      rw [jlookup_mergeKVs, hnone]
      rfl
  · intro h
    rw [canonicalize_eq]
    simp [canonKvs, h]
  · intro v h hobj hnull
    rw [canonicalize_eq]
    cases v with
    | obj kvs => exact absurd rfl (hobj kvs)
    | null => exact absurd rfl hnull
    | _ => simp [canonKvs, h]
  · intro h
    rw [canonicalize_eq]
    simp [canonKvs, h]

/-- Claim C4 witness: the four branches of the heuristic at concrete
payloads. -/
theorem c4_witness :
    canonicalize
        (fun s => if s = "o" then some (.obj [("level", .str "info")])
          else if s = "z" then some .null
          else if s = "s" then some (.str "plain") else none)
        ⟨1, .function "o"⟩
      = .obj (mergeKVs [("level", .str "info")]
          [("t", .num 1), ("type", .str "function")])
    ∧ canonicalize
        (fun s => if s = "o" then some (.obj [("level", .str "info")])
          else if s = "z" then some .null
          else if s = "s" then some (.str "plain") else none)
        ⟨1, .function "z"⟩
      = .obj [("t", .num 1), ("type", .str "function")]
    ∧ canonicalize
        (fun s => if s = "o" then some (.obj [("level", .str "info")])
          else if s = "z" then some .null
          else if s = "s" then some (.str "plain") else none)
        ⟨1, .function "s"⟩
      = .obj [("t", .num 1), ("type", .str "function"),
              ("record", .str "plain")]
    ∧ canonicalize
        (fun s => if s = "o" then some (.obj [("level", .str "info")])
          else if s = "z" then some .null
          else if s = "s" then some (.str "plain") else none)
        ⟨1, .function "nope"⟩
      = .obj [("t", .num 1), ("type", .str "function"),
              ("record", .str "nope")] :=
  ⟨((c4_json_unwrap _ 1 "o").1 [("level", .str "info")] rfl).1,
   (c4_json_unwrap _ 1 "z").2.1 rfl,
   (c4_json_unwrap _ 1 "s").2.2.1 (.str "plain") rfl
     (fun _ h => Json.noConfusion h) (fun h => Json.noConfusion h),
   (c4_json_unwrap _ 1 "nope").2.2.2 rfl⟩

/-- Claim C5 counterexample: a `PlatformReport` with no init duration still
carries the `init_duration_ms` key — `insert` converts `Option::None` to
JSON `null` — so the claim that the key is absent is false. -/
theorem c5_counterexample :
    jlookup "init_duration_ms"
      (kvsOf (canonicalize (fun _ => none)
        ⟨1, .platformReport "req-1" ⟨2, 3, 128, 64, none⟩⟩))
      = some .null := rfl

/-- Claim C5 (amended): every `PlatformReport` event contains `request_id`,
`duration_ms`, `billed_duration_ms`, `memory_size_mb`, `max_memory_used_mb`
and ALWAYS contains `init_duration_ms`: its value is the reported duration
when the host reported one and JSON `null` when it did not (the key is
never omitted). -/
theorem c5_report_fields (parse : String → Option Json) (time : Int)
    (rid : String) (m : ReportMetrics) :
    jlookup "request_id"
        (kvsOf (canonicalize parse ⟨time, .platformReport rid m⟩))
      = some (.str rid)
    ∧ jlookup "duration_ms"
        (kvsOf (canonicalize parse ⟨time, .platformReport rid m⟩))
      = some (.num m.duration_ms)
    ∧ jlookup "billed_duration_ms"
        (kvsOf (canonicalize parse ⟨time, .platformReport rid m⟩))
      = some (.num m.billed_duration_ms)
    ∧ jlookup "memory_size_mb"
        (kvsOf (canonicalize parse ⟨time, .platformReport rid m⟩))
      = some (.num m.memory_size_mb)
    ∧ jlookup "max_memory_used_mb"
        (kvsOf (canonicalize parse ⟨time, .platformReport rid m⟩))
      = some (.num m.max_memory_used_mb)
    ∧ jlookup "init_duration_ms"
        (kvsOf (canonicalize parse ⟨time, .platformReport rid m⟩))
      = some (optionToJson m.init_duration_ms) := by
  refine ⟨?_, ?_, ?_, ?_, ?_, ?_⟩ <;> (rw [canonicalize_eq]; rfl)

/-- Claim C6 (confirmed): the events a batch enqueues are exactly its
records' canonical events in batch order; the forwarder (write and flush
succeeding) writes exactly one chunk per event, in that same order, each
chunk being the event's JSON serialization followed by a newline and
nothing else; and no serialized event contains a newline, so each event
occupies exactly one line. -/
theorem c6_order_preservation (parse : String → Option Json)
    (logs : List LambdaLog) :
    (handlerRun parse logs ⟨[], none⟩).2.sent = logs.map (canonicalize parse)
    ∧ writtenChunks (forwarderTrace (fun _ => true) (fun _ => true) 0
        ((handlerRun parse logs ⟨[], none⟩).2.sent))
      = logs.map (fun l => dump (canonicalize parse l) ++ "\n")
    ∧ (∀ j : Json, hasNL (dump j) = false) := by
  have h1 : (handlerRun parse logs ⟨[], none⟩).2.sent
      = logs.map (canonicalize parse) := by
    rw [handlerRun_unbounded]
    simp
  refine ⟨h1, ?_, dump_noNL⟩
  rw [h1, writtenChunks_allOk]
  simp

/-- Claim C7 (confirmed): when the queue's receiving side closes after
accepting `k` events and the batch holds more than `k` records, the handler
returns an error for the whole batch (surfaced as an invocation failure by
`?` on main.rs line 73), while the `k` events already enqueued stay
enqueued — no rollback, no retry. -/
theorem c7_closed_queue_fails_batch (parse : String → Option Json)
    (logs : List LambdaLog) (k : Nat) (h : k < logs.length) :
    (handlerRun parse logs ⟨[], some k⟩).1 = .error "channel closed"
    ∧ (handlerRun parse logs ⟨[], some k⟩).2.sent
        = (logs.take k).map (canonicalize parse) := by
  rw [handlerRun_closed parse logs k [] h]
  exact ⟨rfl, by simp⟩

/-- Claim C7 witness: a two-record batch against a queue that closes after
one accepted event. -/
theorem c7_witness :
    1 < ([(⟨1, .platformStart "a"⟩ : LambdaLog),
          ⟨2, .platformStart "b"⟩] : List LambdaLog).length
    ∧ (handlerRun (fun _ => none)
        [⟨1, .platformStart "a"⟩, ⟨2, .platformStart "b"⟩] ⟨[], some 1⟩).1
      = .error "channel closed"
    ∧ (handlerRun (fun _ => none)
        [⟨1, .platformStart "a"⟩, ⟨2, .platformStart "b"⟩] ⟨[], some 1⟩).2.sent
      = [canonicalize (fun _ => none) ⟨1, .platformStart "a"⟩] :=
  ⟨by decide,
   (c7_closed_queue_fails_batch (fun _ => none)
     [⟨1, .platformStart "a"⟩, ⟨2, .platformStart "b"⟩] 1 (by decide)).1,
   (c7_closed_queue_fails_batch (fun _ => none)
     [⟨1, .platformStart "a"⟩, ⟨2, .platformStart "b"⟩] 1 (by decide)).2⟩

/-- Claim C8 (confirmed): in socket mode a write failure on one event is
non-fatal — the stream receives exactly the chunks of the events whose
writes succeeded, in order (a failed event's bytes never appear and are
never retried); the forwarder still starts processing every dequeued event
(one `Sending log` diagnostic each), emits one write-error diagnostic per
failed write, and still reaches its orderly shutdown. -/
theorem c8_write_errors_nonfatal (wOk fOk : Nat → Bool) (i : Nat)
    (evs : List Json) :
    writtenChunks (forwarderTrace wOk fOk i evs)
      = (List.enumFrom i evs).filterMap
          (fun p => if wOk p.1 then some (dump p.2 ++ "\n") else none)
    ∧ (forwarderTrace wOk fOk i evs).countP isSendingDiag = evs.length
    ∧ (forwarderTrace wOk fOk i evs).countP isWriteErr
        = (List.enumFrom i evs).countP (fun p => !wOk p.1)
    ∧ (forwarderTrace wOk fOk i evs).getLast? = some .sockShutdown :=
  ⟨writtenChunks_forwarderTrace wOk fOk evs i,
   countSend_forwarderTrace wOk fOk evs i,
   countErr_forwarderTrace wOk fOk evs i,
   getLast_forwarderTrace wOk fOk evs i⟩

/-- Claim C9 counterexample: for a record of an unsupported variant
(`PlatformRuntimeDone` here) the transform does NOT produce "no event": it
produces the minimal event carrying only `t`, so the claim's "no event for
unsupported variants" clause is false. -/
theorem c9_counterexample :
    canonicalizeE (fun _ => none) ⟨5, .platformRuntimeDone "success"⟩
      = .ok (.obj [("t", .num 5)]) := rfl

/-- Claim C9 (amended): canonicalization is total and deterministic — for
every record (and every parse behavior) the transform reaches no internal
error branch and returns exactly one canonical event; unsupported variants
yield the minimal `t`-only event rather than no event. -/
theorem c9_total_deterministic (parse : String → Option Json)
    (log : LambdaLog) :
    canonicalizeE parse log = .ok (canonicalize parse log) :=
  canonicalizeE_ok parse log

/-- Claim C10 (confirmed): once the producer side is closed, the forwarder
ends with exactly one socket shutdown, performed as the very last step of
its trace; and (writes succeeding) every event still queued is written
before that shutdown, in queue order. -/
theorem c10_drain_then_shutdown (wOk fOk : Nat → Bool) (i : Nat)
    (evs : List Json) :
    (forwarderTrace wOk fOk i evs).getLast? = some .sockShutdown
    ∧ (forwarderTrace wOk fOk i evs).countP isShutdown = 1
    ∧ writtenChunks (forwarderTrace (fun _ => true) (fun _ => true) i evs)
        = evs.map (fun j => dump j ++ "\n") :=
  ⟨getLast_forwarderTrace wOk fOk evs i,
   countShutdown_forwarderTrace wOk fOk evs i,
   writtenChunks_allOk evs i⟩

end LogStore
